import Mathlib

/-!
Verification development for NVInstall (nvinstall.py), a tool that resolves
the host Linux distribution to an ordered list of shell commands installing
NVIDIA GPU drivers, and executes them sequentially with fail-fast semantics.

The Python source is shallowly embedded: host state (the OS metadata file,
the platform name, the machine identifier, subprocess exit codes) is passed
explicitly as parameters; `sys.exit` is modelled by returning an exit code;
log and subprocess side effects of the executor are modelled as an explicit
event trace.
-/

/-- Model of Python `str.lower()` for the ASCII strings this program uses:
lowercases every character. -/
def lowerStr (s : String) : String := ⟨s.data.map Char.toLower⟩

/-- Model of Python `v.startswith(p)`: `p` is a prefix of `s`. -/
def startsWithL (p s : String) : Bool := p.data.isPrefixOf s.data

/-- Whether `pat` occurs as a contiguous block of `l` (helper for
`containsSub`). -/
def infixAt (pat : List Char) : List Char → Bool
  | [] => pat.isEmpty
  | x :: xs => pat.isPrefixOf (x :: xs) || infixAt pat xs

/-- Model of Python `pat in s` (substring containment). -/
def containsSub (pat s : String) : Bool := infixAt pat.data s.data

/-- Characters stripped by Python `str.strip()` with no argument. -/
def isPySpace (c : Char) : Bool :=
  c = ' ' || c = '\t' || c = '\n' || c = '\r' || c = '\x0b' || c = '\x0c'

/-- Model of Python `line.strip()`: drop leading and trailing whitespace. -/
def pyStrip (s : String) : String :=
  ⟨((s.data.dropWhile isPySpace).reverse.dropWhile isPySpace).reverse⟩

/-- Model of Python `value.strip(Char.ofNat 34)`: drop leading and trailing
double-quote characters. -/
def stripQuotes (s : String) : String :=
  ⟨((s.data.dropWhile (· = '"')).reverse.dropWhile (· = '"')).reverse⟩

/-- Split a character list at the first occurrence of `c`
(Python `split(sep, 1)`): returns the part before and the part after. -/
def splitAtFirst (c : Char) : List Char → List Char × List Char
  | [] => ([], [])
  | x :: xs =>
    if x = c then ([], xs)
    else
      let p := splitAtFirst c xs
      (x :: p.1, p.2)

/-- One line of the OS metadata file, as `detect_os_release` parses it
(nvinstall.py lines 72 to 80): `none` when the raw line has no equals sign,
otherwise the key and the quote-stripped value obtained by stripping the
line and splitting at the first equals sign. -/
def lineEntry (line : String) : Option (String × String) :=
  if line.data.contains '=' then
    let stripped := pyStrip line
    let p := splitAtFirst '=' stripped.data
    some (⟨p.1⟩, stripQuotes ⟨p.2⟩)
  else none

/-- State update of `detect_os_release` for one line: record the value under
`ID` into the first component and under `VERSION_ID` into the second. -/
def osrStep (st : String × String) (line : String) : String × String :=
  match lineEntry line with
  | none => st
  | some (key, value) =>
    if key = "ID" then (value, st.2)
    else if key = "VERSION_ID" then (st.1, value)
    else st

/-- Embedding of `detect_os_release` (nvinstall.py lines 67 to 83). The host
state is the optional content of the OS metadata file (`none` models
`FileNotFoundError`) together with the generic platform name
(`platform.system()`). -/
def detect_os_release (osRelease : Option (List String)) (platformSystem : String) :
    String × String :=
  match osRelease with
  | some lines => lines.foldl osrStep ("", "")
  | none => (lowerStr platformSystem, "")

/-- Embedding of `detect_architecture` (nvinstall.py lines 85 to 91); the
parameter is the raw `platform.machine()` value of the host. -/
def detect_architecture (rawMachine : String) : String :=
  let machine := lowerStr rawMachine
  if machine = "x86_64" ∨ machine = "amd64" then "x86_64"
  else if machine = "aarch64" ∨ machine = "arm64" ∨ machine = "armv8" then "sbsa"
  else machine

/-- Embedding of `distro_key` (nvinstall.py lines 93 to 122). -/
def distro_key (distro_id version_id : String) : String :=
  let d := lowerStr distro_id
  let v := lowerStr version_id
  if d = "ubuntu" ∧ startsWithL "22.04" v then "ubuntu22.04"
  else if d = "debian" ∧ startsWithL "12" v then "debian12"
  else if d = "fedora" then "fedora42"
  else if d = "opensuse" ∨ d = "opensuse-leap" ∨ d = "suse" ∨ d = "sles" then "opensuse15"
  else if (d = "rhel" ∨ d = "redhat") ∧ startsWithL "8" v then "rhel8"
  else if (d = "rhel" ∨ d = "redhat") ∧ startsWithL "9" v then "rhel9"
  else if (d = "rhel" ∨ d = "redhat") ∧ startsWithL "10" v then "rhel10"
  else if (d = "rocky" ∨ d = "almalinux" ∨ d = "oraclelinux") ∧ startsWithL "8" v then "rhel8"
  else if (d = "rocky" ∨ d = "almalinux" ∨ d = "oraclelinux") ∧ startsWithL "9" v then "rhel9"
  else if (d = "rocky" ∨ d = "almalinux" ∨ d = "oraclelinux") ∧ startsWithL "10" v then "rhel10"
  else if (d = "amzn" ∨ d = "amazon" ∨ d = "amazonlinux" ∨ d = "amazon linux") ∧
      (containsSub "2023" v = true ∨ v = "2023") then "amazonlinux2023"
  else if (d = "azurelinux" ∨ d = "azure" ∨ d = "azl" ∨ d = "azlinux") ∧
      (startsWithL "3" v = true ∨ v = "3") then "azurelinux3"
  else d ++ (if v = "" then "" else "-" ++ v)

/-- The configuration record built in `main` (nvinstall.py lines 53 to 65). -/
structure InstallerConfig where
  distro : String
  arch : String
  module : String
  variant : String
  dry_run : Bool

/-- Constructor of `InstallerConfig` including its `__post_init__`
normalization: every string field is lowercased. -/
def mkInstallerConfig (distro arch module variant : String) (dry_run : Bool) :
    InstallerConfig :=
  { distro := lowerStr distro, arch := lowerStr arch, module := lowerStr module,
    variant := lowerStr variant, dry_run := dry_run }

/-- Embedding of `_warn_variant_if_needed` (nvinstall.py lines 134 to 140):
the list of `(message, level)` pairs the resolver logs about the variant. -/
def warn_variant_if_needed (variant : String) : List (String × String) :=
  if variant = "compute-only" ∨ variant = "desktop-only" then
    [("Notice: current distro recipes do not separate compute-only/desktop-only. Variant \"" ++
        variant ++ "\" will be treated as \"full\".", "WARNING")]
  else []

/-- The nine target keys handled by the branches of `build_commands`
(nvinstall.py lines 148 to 235), as listed in its error message. -/
def supportedKeys : List String :=
  ["amazonlinux2023", "azurelinux3", "debian12", "fedora42", "opensuse15",
   "rhel8", "rhel9", "rhel10", "ubuntu22.04"]

/-- The branch table of `build_commands` (nvinstall.py lines 148 to 244),
factored over the already computed target key: given the config distribution
(used only in the error message), the key and the module, return the command
list, or the `NotImplementedError` message for an unmatched key. -/
def commands_for_key (distro key module : String) : Except String (List String) :=
  if key = "amazonlinux2023" then
    Except.ok
      ["dnf upgrade -y",
       "dnf config-manager --add-repo https://developer.download.nvidia.com/compute/cuda/repos/amzn2023/x86_64/cuda-amzn2023.repo",
       "dnf clean all",
       if module = "open" then "dnf -y module install nvidia-driver:open-dkms"
       else "dnf -y module install nvidia-driver:latest-dkms"]
  else if key = "azurelinux3" then
    Except.ok
      ["tdnf upgrade -y",
       "curl https://developer.download.nvidia.com/compute/cuda/repos/azl3/x86_64/cuda-azl3.repo | tee /etc/yum.repos.d/cuda-azl3.repo",
       "tdnf -y install azurelinux-repos-extended",
       "tdnf clean all",
       "tdnf -y install nvidia-open"]
  else if key = "debian12" then
    Except.ok
      ["apt-get upgrade -y",
       "wget https://developer.download.nvidia.com/compute/cuda/repos/debian12/x86_64/cuda-keyring_1.1-1_all.deb",
       "dpkg -i cuda-keyring_1.1-1_all.deb",
       "apt-get update",
       if module = "open" then "apt-get install -y nvidia-open"
       else "apt-get install -y cuda-drivers"]
  else if key = "fedora42" then
    Except.ok
      ["dnf upgrade -y",
       "dnf config-manager addrepo --from-repofile https://developer.download.nvidia.com/compute/cuda/repos/fedora42/x86_64/cuda-fedora42.repo",
       "dnf clean all",
       if module = "open" then "dnf -y install nvidia-open"
       else "dnf -y install cuda-drivers"]
  else if key = "opensuse15" then
    Except.ok
      ["zypper update -y",
       "zypper addrepo https://developer.download.nvidia.com/compute/cuda/repos/opensuse15/x86_64/cuda-opensuse15.repo",
       "zypper refresh",
       if module = "open" then "zypper install -y nvidia-open"
       else "zypper install -y cuda-drivers"]
  else if key = "rhel8" ∨ key = "rhel9" then
    Except.ok
      ["dnf upgrade -y",
       (if key = "rhel8" then
          "dnf config-manager --add-repo https://developer.download.nvidia.com/compute/cuda/repos/rhel8/x86_64/cuda-rhel8.repo"
        else
          "dnf config-manager --add-repo https://developer.download.nvidia.com/compute/cuda/repos/rhel9/x86_64/cuda-rhel9.repo"),
       "dnf clean all",
       if module = "open" then "dnf -y module install nvidia-driver:open-dkms"
       else "dnf -y module install nvidia-driver:latest-dkms"]
  else if key = "rhel10" then
    Except.ok
      ["dnf upgrade -y",
       "dnf config-manager --add-repo https://developer.download.nvidia.com/compute/cuda/repos/rhel10/x86_64/cuda-rhel10.repo",
       if module = "open" then "dnf -y install nvidia-open"
       else "dnf -y install cuda-drivers"]
  else if key = "ubuntu22.04" then
    Except.ok
      ["apt-get upgrade -y",
       "wget https://developer.download.nvidia.com/compute/cuda/repos/ubuntu2204/x86_64/cuda-keyring_1.1-1_all.deb",
       "dpkg -i cuda-keyring_1.1-1_all.deb",
       "apt-get update",
       if module = "open" then "apt-get install -y nvidia-open"
       else "apt-get install -y cuda-drivers"]
  else
    Except.error
      ("Distribution/OS \"" ++ distro ++
        ("\" (normalized \"" ++ key ++
          "\") is not supported by this recipe. Supported targets: amazonlinux2023, azurelinux3, debian12, fedora42, opensuse15, rhel8, rhel9, rhel10, ubuntu22.04."))

/-- Embedding of `build_commands` (nvinstall.py lines 142 to 244): given the
config and the `VERSION_ID` that `detect_os_release` reads from the host,
return the variant advisory log entries together with the resolved command
plan (or the `NotImplementedError` message). -/
def build_commands (config : InstallerConfig) (hostVersionId : String) :
    List (String × String) × Except String (List String) :=
  (warn_variant_if_needed config.variant,
   commands_for_key config.distro (distro_key config.distro hostVersionId) config.module)

/-- Observable executor side effects: a log line, or a spawned shell
subprocess running the given command string. -/
inductive ExecEvent where
  | logged : String → ExecEvent
  | spawned : String → ExecEvent
deriving DecidableEq

/-- The full command string of `run_command` (nvinstall.py line 125): the
privilege-elevation wrapper is prepended when not running as root. -/
def full_cmd (use_sudo : Bool) (cmd : String) : String :=
  if use_sudo then "sudo -E " ++ cmd else cmd

/-- Embedding of `run_command` (nvinstall.py lines 124 to 132). Subprocess
behaviour of the host is the oracle `exitOf`, mapping the executed command
string to its exit code. Returns the event trace and `some rc` when the
function called `sys.exit rc` (a nonzero subprocess exit code), `none` when
it returned normally. -/
def run_command (cmd : String) (dry_run use_sudo : Bool) (exitOf : String → Nat) :
    List ExecEvent × Option Nat :=
  let fc := full_cmd use_sudo cmd
  if dry_run then ([ExecEvent.logged ("$ " ++ fc)], none)
  else
    let rc := exitOf fc
    if rc ≠ 0 then
      ([ExecEvent.logged ("$ " ++ fc), ExecEvent.spawned fc,
        ExecEvent.logged ("Command failed with exit code " ++ toString rc)], some rc)
    else ([ExecEvent.logged ("$ " ++ fc), ExecEvent.spawned fc], none)

/-- The command loop of `main` (nvinstall.py lines 315 to 317): run each
command in order, stopping at the first one whose `run_command` call exits
the process. -/
def run_plan (cmds : List String) (dry_run use_sudo : Bool) (exitOf : String → Nat) :
    List ExecEvent × Option Nat :=
  match cmds with
  | [] => ([], none)
  | c :: rest =>
    let r := run_command c dry_run use_sudo exitOf
    match r.2 with
    | some rc => (r.1, some rc)
    | none =>
      let r2 := run_plan rest dry_run use_sudo exitOf
      (r.1 ++ r2.1, r2.2)

/-- The raw CLI argument values of `main` (after `argparse`). -/
structure Args where
  distro : String
  arch : String
  module : String
  variant : String
  dry_run : Bool

/-- Embedding of `main` (nvinstall.py lines 246 to 319) from the point where
the config is built: resolution followed by execution. Returns the process
exit code and the executor event trace; an unsupported distribution logs the
error message at CRITICAL level and exits 1 before any command runs. -/
def main_run (a : Args) (hostVersionId : String) (use_sudo : Bool)
    (exitOf : String → Nat) : Nat × List ExecEvent :=
  let config := mkInstallerConfig a.distro a.arch a.module a.variant a.dry_run
  match (build_commands config hostVersionId).2 with
  | Except.error _ => (1, [])
  | Except.ok cmds =>
    let r := run_plan cmds config.dry_run use_sudo exitOf
    ((r.2).getD 0, r.1)

/-- The four conceptual phases of an install plan (plus `other` for
unclassified commands), used to state the shape properties. -/
inductive StepClass where
  | refresh
  | register
  | clean
  | install
  | other
deriving DecidableEq

/-- Classify one concrete command string of the `build_commands` tables.
`refresh` is the initial package-index refresh / system upgrade; `register`
covers the vendor-repository registration mechanisms (repo-file download or
add-repo commands, keyring package download and install, and the
`azurelinux-repos-extended` repository-definition package); `clean` is the
local repository cache clean/refresh; `install` the driver package
install. -/
def stepClass (c : String) : StepClass :=
  if c = "dnf upgrade -y" ∨ c = "tdnf upgrade -y" ∨ c = "apt-get upgrade -y" ∨
      c = "zypper update -y" then StepClass.refresh
  else if c = "dnf clean all" ∨ c = "tdnf clean all" ∨ c = "apt-get update" ∨
      c = "zypper refresh" then StepClass.clean
  else if startsWithL "dnf config-manager" c ∨
      startsWithL "curl https://developer.download.nvidia.com" c ∨
      startsWithL "wget https://developer.download.nvidia.com" c ∨
      startsWithL "dpkg -i cuda-keyring" c ∨
      startsWithL "zypper addrepo" c ∨
      c = "tdnf -y install azurelinux-repos-extended" then StepClass.register
  else if startsWithL "dnf -y module install" c ∨ startsWithL "dnf -y install" c ∨
      startsWithL "tdnf -y install" c ∨ startsWithL "apt-get install -y" c ∨
      startsWithL "zypper install -y" c then StepClass.install
  else StepClass.other

/-- Collapse consecutive equal phases, so that a plan whose registration
spans several consecutive commands yields one `register` phase. -/
def collapseClasses : List StepClass → List StepClass
  | [] => []
  | [x] => [x]
  | x :: y :: rest =>
    if x = y then collapseClasses (y :: rest)
    else x :: collapseClasses (y :: rest)

/-- The command of a plan that registers the NVIDIA vendor repository with
the package manager: installing the downloaded keyring package, piping the
repo file into place, or an add-repo command. (The `wget` download and the
`azurelinux-repos-extended` package prepare for it but do not register the
NVIDIA repository.) -/
def registersVendorRepo (c : String) : Bool :=
  startsWithL "dpkg -i cuda-keyring" c ||
  startsWithL "dnf config-manager" c ||
  startsWithL "zypper addrepo" c ||
  startsWithL "curl https://developer.download.nvidia.com" c

/-- The keyring-registration command of the Debian-family plans: installing
the downloaded `cuda-keyring` package with `dpkg`. -/
def isKeyringRegistration (c : String) : Bool :=
  startsWithL "dpkg -i cuda-keyring" c

/-- The commands spawned as subprocesses in an event trace, in order. -/
def spawnedCmds (evs : List ExecEvent) : List String :=
  evs.foldr
    (fun e acc =>
      match e with
      | ExecEvent.spawned c => c :: acc
      | ExecEvent.logged _ => acc) []

/-- The expected event trace of a fully successful live run: each command is
logged and then spawned, in plan order. -/
def liveTrace (use_sudo : Bool) (cmds : List String) : List ExecEvent :=
  cmds.foldr
    (fun c acc =>
      ExecEvent.logged ("$ " ++ full_cmd use_sudo c) ::
        ExecEvent.spawned (full_cmd use_sudo c) :: acc) []

/-- Per-key accumulator of `detect_os_release`: value of the last line whose
parsed key equals `key`, starting from `acc`. -/
def keyStep (key : String) (acc : String) (line : String) : String :=
  match lineEntry line with
  | none => acc
  | some p => if p.1 = key then p.2 else acc

/-- The quote-stripped value of the last line of the file whose parsed key
equals `key`, or the empty string when no line mentions it (the behaviour
the spec ascribes to `detect_os_release` for `ID` and `VERSION_ID`). -/
def lastKeyValue (key : String) (lines : List String) : String :=
  lines.foldl (keyStep key) ""

/-- Whether a line parses to an entry for the given key. -/
def mentionsKey (key l : String) : Bool :=
  match lineEntry l with
  | some p => p.1 == key
  | none => false

deriving instance DecidableEq for Except

theorem strData_append (s t : String) : (s ++ t).data = s.data ++ t.data := by
  cases s; cases t; rfl

theorem strAppend_empty (s : String) : s ++ "" = s := by
  cases s with
  | mk l => show String.mk (l ++ []) = String.mk l; rw [List.append_nil]

/-- An unmatched key reaches the final branch of `build_commands` and yields
the `NotImplementedError` message naming the config distribution, the key
and the supported targets. -/
theorem commands_for_key_unsupported (d k m : String) (hk : k ∉ supportedKeys) :
    commands_for_key d k m =
      Except.error ("Distribution/OS \"" ++ d ++
        ("\" (normalized \"" ++ k ++
          "\") is not supported by this recipe. Supported targets: amazonlinux2023, azurelinux3, debian12, fedora42, opensuse15, rhel8, rhel9, rhel10, ubuntu22.04.")) := by
  simp only [supportedKeys, List.mem_cons, List.not_mem_nil, or_false, not_or] at hk
  obtain ⟨h1, h2, h3, h4, h5, h6, h7, h8, h9⟩ := hk
  simp only [commands_for_key, if_neg h1, if_neg h2, if_neg h3, if_neg h4, if_neg h5,
    if_neg (not_or.mpr ⟨h6, h7⟩), if_neg h8, if_neg h9]

/-- A key that resolves to a command list is one of the supported targets. -/
theorem mem_supported_of_ok (d k m : String) (cmds : List String)
    (h : commands_for_key d k m = Except.ok cmds) : k ∈ supportedKeys := by
  by_contra hk
  rw [commands_for_key_unsupported d k m hk] at h
  exact Except.noConfusion h

/-- Any module string other than `open` selects the proprietary package in
every branch. -/
theorem commands_for_key_module (d k m : String) (hm : m ≠ "open") :
    commands_for_key d k m = commands_for_key d k "proprietary" := by
  simp only [commands_for_key, if_neg hm,
    if_neg (by decide : ¬("proprietary" = "open"))]

/-- Master enumeration of the branch table: every supported key resolves,
for every module, to a non-empty plan with exactly one NVIDIA-repository
registration command, only `x86_64` NVIDIA repository URLs, and the phase
shape refresh, register, clean, install, except that `rhel10` lacks the
clean phase. -/
theorem commands_for_key_ok (d k m : String) (hk : k ∈ supportedKeys) :
    ∃ cmds, commands_for_key d k m = Except.ok cmds ∧
      cmds ≠ [] ∧
      List.countP (fun c => registersVendorRepo c) cmds = 1 ∧
      (∀ c ∈ cmds, containsSub "developer.download.nvidia.com" c = true →
        containsSub "/x86_64/" c = true) ∧
      collapseClasses (cmds.map stepClass) =
        (if k = "rhel10"
          then [StepClass.refresh, StepClass.register, StepClass.install]
          else [StepClass.refresh, StepClass.register, StepClass.clean,
            StepClass.install]) := by
  have hmod : commands_for_key d k m = commands_for_key d k "open" ∨
      commands_for_key d k m = commands_for_key d k "proprietary" := by
    by_cases hm : m = "open"
    · exact Or.inl (by rw [hm])
    · exact Or.inr (commands_for_key_module d k m hm)
  simp only [supportedKeys, List.mem_cons, List.not_mem_nil, or_false] at hk
  rcases hk with h|h|h|h|h|h|h|h|h <;> subst h <;> rcases hmod with h|h <;> rw [h] <;>
    exact ⟨_, rfl, by decide, by decide, by decide, by decide⟩

theorem supported_no_dash : ∀ k ∈ supportedKeys, '-' ∉ k.data := by decide

/-- The fallback key of `distro_key` (distribution id, possibly followed by
a dash and the version) is never a supported target when the bare
distribution id is not one. -/
theorem fallback_not_supported (d v : String) (hd : d ∉ supportedKeys) :
    (d ++ (if v = "" then "" else "-" ++ v)) ∉ supportedKeys := by
  by_cases hv : v = ""
  · rw [if_pos hv, strAppend_empty]; exact hd
  · rw [if_neg hv]
    intro hk
    apply supported_no_dash _ hk
    rw [strData_append, strData_append]
    exact List.mem_append_right _ (List.mem_append_left _ (by decide))

/-- Resolution of the distribution id `ubuntu`: the supported target
`ubuntu22.04` exactly when the host version starts with `22.04`, otherwise
an unsupported fallback key. -/
theorem distro_key_ubuntu (hv : String) :
    (startsWithL "22.04" (lowerStr hv) = true → distro_key "ubuntu" hv = "ubuntu22.04") ∧
    (startsWithL "22.04" (lowerStr hv) = false → distro_key "ubuntu" hv ∉ supportedKeys) := by
  have hlow : lowerStr "ubuntu" = "ubuntu" := by decide
  constructor
  · intro hs
    simp [distro_key, hlow, hs]
  · intro hs
    have : distro_key "ubuntu" hv =
        "ubuntu" ++ (if lowerStr hv = "" then "" else "-" ++ lowerStr hv) := by
      simp [distro_key, hlow, hs]
    rw [this]
    exact fallback_not_supported "ubuntu" (lowerStr hv) (by decide)

/-- In dry-run mode, the plan loop logs every full command in order and
returns normally, spawning nothing. -/
theorem run_plan_dry (cmds : List String) (us : Bool) (o : String → Nat) :
    run_plan cmds true us o =
      (cmds.map (fun c => ExecEvent.logged ("$ " ++ full_cmd us c)), none) := by
  induction cmds with
  | nil => rfl
  | cons c rest ih => simp [run_plan, run_command, ih]

/-- In live mode, when every command of the plan exits with code zero, the
loop logs and spawns each command in order and returns normally. -/
theorem run_plan_all_zero (cmds : List String) (us : Bool) (o : String → Nat)
    (h : ∀ c ∈ cmds, o (full_cmd us c) = 0) :
    run_plan cmds false us o = (liveTrace us cmds, none) := by
  induction cmds with
  | nil => rfl
  | cons c rest ih =>
    have hc : o (full_cmd us c) = 0 := h c (List.mem_cons_self c rest)
    have hrest : ∀ x ∈ rest, o (full_cmd us x) = 0 :=
      fun x hx => h x (List.mem_cons_of_mem c hx)
    simp [run_plan, run_command, hc, ih hrest, liveTrace]

/-- In live mode, the first command with a nonzero exit code stops the loop:
the trace is the successful prefix, then the log, spawn and failure log of
the failing command, and the loop exits with that code. The commands after
the failing one leave no trace. -/
theorem run_plan_fail (pre : List String) (c : String) (post : List String) (us : Bool)
    (o : String → Nat) (hpre : ∀ x ∈ pre, o (full_cmd us x) = 0)
    (hc : o (full_cmd us c) ≠ 0) :
    run_plan (pre ++ c :: post) false us o =
      (liveTrace us pre ++
        [ExecEvent.logged ("$ " ++ full_cmd us c), ExecEvent.spawned (full_cmd us c),
         ExecEvent.logged ("Command failed with exit code " ++ toString (o (full_cmd us c)))],
       some (o (full_cmd us c))) := by
  induction pre with
  | nil => simp [run_plan, run_command, hc, liveTrace]
  | cons p rest ih =>
    have hp : o (full_cmd us p) = 0 := hpre p (List.mem_cons_self p rest)
    have hrest : ∀ x ∈ rest, o (full_cmd us x) = 0 :=
      fun x hx => hpre x (List.mem_cons_of_mem p hx)
    simp [run_plan, run_command, hp, ih hrest, liveTrace]

theorem spawnedCmds_nil : spawnedCmds [] = [] := rfl

theorem spawnedCmds_cons_logged (m : String) (l : List ExecEvent) :
    spawnedCmds (ExecEvent.logged m :: l) = spawnedCmds l := rfl

theorem spawnedCmds_cons_spawned (c : String) (l : List ExecEvent) :
    spawnedCmds (ExecEvent.spawned c :: l) = c :: spawnedCmds l := rfl

theorem liveTrace_cons (us : Bool) (c : String) (cmds : List String) :
    liveTrace us (c :: cmds) =
      ExecEvent.logged ("$ " ++ full_cmd us c) :: ExecEvent.spawned (full_cmd us c) ::
        liveTrace us cmds := rfl

theorem spawnedCmds_append (a b : List ExecEvent) :
    spawnedCmds (a ++ b) = spawnedCmds a ++ spawnedCmds b := by
  induction a with
  | nil => rfl
  | cons e rest ih =>
    cases e <;>
      simp only [List.cons_append, spawnedCmds_cons_logged, spawnedCmds_cons_spawned, ih,
        List.nil_append]

theorem spawnedCmds_liveTrace (us : Bool) (cmds : List String) :
    spawnedCmds (liveTrace us cmds) = cmds.map (full_cmd us) := by
  induction cmds with
  | nil => rfl
  | cons c rest ih =>
    simp only [liveTrace_cons, spawnedCmds_cons_logged, spawnedCmds_cons_spawned, ih,
      List.map_cons]

theorem spawnedCmds_map_logged (f : String → String) (cmds : List String) :
    spawnedCmds (cmds.map (fun c => ExecEvent.logged (f c))) = [] := by
  induction cmds with
  | nil => rfl
  | cons m rest ih => simp only [List.map_cons, spawnedCmds_cons_logged, ih]

/-- One step of the `detect_os_release` fold, componentwise. -/
theorem osrStep_eq (st : String × String) (l : String) :
    osrStep st l = (keyStep "ID" st.1 l, keyStep "VERSION_ID" st.2 l) := by
  cases he : lineEntry l with
  | none => simp [osrStep, keyStep, he]
  | some p =>
    obtain ⟨k, v⟩ := p
    by_cases h1 : k = "ID"
    · subst h1; simp [osrStep, keyStep, he]
    · by_cases h2 : k = "VERSION_ID" <;> simp [osrStep, keyStep, he, h1, h2]

/-- The pair-state fold of `detect_os_release` computes the two per-key
extractions independently. -/
theorem osr_foldl_eq (lines : List String) :
    ∀ a b : String, lines.foldl osrStep (a, b) =
      (lines.foldl (keyStep "ID") a, lines.foldl (keyStep "VERSION_ID") b) := by
  induction lines with
  | nil => intro a b; rfl
  | cons l rest ih =>
    intro a b
    simp only [List.foldl_cons, osrStep_eq]
    exact ih (keyStep "ID" a l) (keyStep "VERSION_ID" b l)

/-- A fold over lines none of which mention the key leaves the accumulator
unchanged. -/
theorem keyStep_foldl_id (key : String) (lines : List String)
    (h : ∀ l ∈ lines, mentionsKey key l = false) :
    ∀ a, lines.foldl (keyStep key) a = a := by
  induction lines with
  | nil => intro a; rfl
  | cons l rest ih =>
    intro a
    have hl : mentionsKey key l = false := h l (List.mem_cons_self l rest)
    have hstep : keyStep key a l = a := by
      cases he : lineEntry l with
      | none => simp [keyStep, he]
      | some p =>
        have hb : (p.1 == key) = false := by rw [mentionsKey, he] at hl; exact hl
        have hne : p.1 ≠ key := by
          intro hpk
          rw [hpk] at hb
          simp at hb
        simp [keyStep, he, hne]
    rw [List.foldl_cons, hstep]
    exact ih (fun x hx => h x (List.mem_cons_of_mem l hx)) a

/-- Claim C1: for every distribution input whose resolved key is not one of
the nine supported targets, `build_commands` fails with a message containing
the (normalized) input distribution string, `main` terminates with exit
code 1, and the executor produces no event, in particular it executes no
command. -/
theorem unsupported_distro_rejected (a : Args) (hv : String) (us : Bool)
    (o : String → Nat)
    (hk : distro_key (lowerStr a.distro) hv ∉ supportedKeys) :
    ∃ msg,
      (build_commands (mkInstallerConfig a.distro a.arch a.module a.variant a.dry_run)
          hv).2 = Except.error msg ∧
      (∃ s t, msg = s ++ lowerStr a.distro ++ t) ∧
      main_run a hv us o = (1, []) := by
  have herr := commands_for_key_unsupported (lowerStr a.distro)
    (distro_key (lowerStr a.distro) hv) (lowerStr a.module) hk
  have herr2 : (build_commands
      (mkInstallerConfig a.distro a.arch a.module a.variant a.dry_run) hv).2 =
      Except.error ("Distribution/OS \"" ++ lowerStr a.distro ++
        ("\" (normalized \"" ++ distro_key (lowerStr a.distro) hv ++
          "\") is not supported by this recipe. Supported targets: amazonlinux2023, azurelinux3, debian12, fedora42, opensuse15, rhel8, rhel9, rhel10, ubuntu22.04.")) :=
    herr
  refine ⟨_, herr2, ⟨"Distribution/OS \"", _, rfl⟩, ?_⟩
  simp only [main_run, herr2]

/-- Witness for claim C1 at the unsupported distribution `marswalker9`. -/
theorem unsupported_distro_rejected_witness :
    ∃ msg,
      (build_commands (mkInstallerConfig "marswalker9" "x86_64" "open" "full" true)
          "").2 = Except.error msg ∧
      (∃ s t, msg = s ++ lowerStr "marswalker9" ++ t) ∧
      main_run ⟨"marswalker9", "x86_64", "open", "full", true⟩ "" false
        (fun _ => 0) = (1, []) :=
  unsupported_distro_rejected ⟨"marswalker9", "x86_64", "open", "full", true⟩ ""
    false (fun _ => 0) (by decide)

/-- Claim C5: in dry-run mode, for every command string and every plan, the
executor logs each full command but spawns no subprocess, and the run
returns normally (no `sys.exit` is triggered by execution). -/
theorem dry_run_never_executes :
    (∀ (cmd : String) (us : Bool) (o : String → Nat),
      run_command cmd true us o =
        ([ExecEvent.logged ("$ " ++ full_cmd us cmd)], none)) ∧
    (∀ (cmds : List String) (us : Bool) (o : String → Nat),
      run_plan cmds true us o =
        (cmds.map (fun c => ExecEvent.logged ("$ " ++ full_cmd us c)), none) ∧
      spawnedCmds (run_plan cmds true us o).1 = []) := by
  refine ⟨fun cmd us o => rfl, fun cmds us o => ⟨run_plan_dry cmds us o, ?_⟩⟩
  rw [run_plan_dry]
  exact spawnedCmds_map_logged (fun c => "$ " ++ full_cmd us c) cmds

/-- Claim C7 counterexample: `detect_architecture` lowercases before the
table lookup, so the machine identifier `FOO`, which is in none of the two
mapped groups, is not returned unchanged. -/
theorem detect_architecture_not_passthrough :
    detect_architecture "FOO" = "foo" ∧ "foo" ≠ "FOO" ∧
    "FOO" ∉ (["x86_64", "amd64", "aarch64", "arm64", "armv8"] : List String) := by
  decide

/-- Claim C7 (amended): `detect_architecture` first lowercases the machine
identifier; lowercased `x86_64` or `amd64` maps to `x86_64`, lowercased
`aarch64`, `arm64` or `armv8` maps to `sbsa`, and every other machine
identifier is returned lowercased (hence unchanged exactly when it is
already lowercase). -/
theorem detect_architecture_spec (m : String) :
    (lowerStr m = "x86_64" ∨ lowerStr m = "amd64" →
      detect_architecture m = "x86_64") ∧
    (lowerStr m = "aarch64" ∨ lowerStr m = "arm64" ∨ lowerStr m = "armv8" →
      detect_architecture m = "sbsa") ∧
    (¬(lowerStr m = "x86_64" ∨ lowerStr m = "amd64") →
      ¬(lowerStr m = "aarch64" ∨ lowerStr m = "arm64" ∨ lowerStr m = "armv8") →
      detect_architecture m = lowerStr m) := by
  refine ⟨fun h => ?_, fun h => ?_, fun h1 h2 => ?_⟩
  · rcases h with h|h <;> simp [detect_architecture, h]
  · rcases h with h|h|h <;> simp [detect_architecture, h]
  · simp [detect_architecture, h1, h2]

/-- Witness for claim C7 on the three behaviours of the mapping. -/
theorem detect_architecture_spec_witness :
    detect_architecture "AMD64" = "x86_64" ∧ detect_architecture "ARM64" = "sbsa" ∧
    detect_architecture "riscv64" = "riscv64" := by
  refine ⟨(detect_architecture_spec "AMD64").1 (by decide),
    (detect_architecture_spec "ARM64").2.1 (by decide), ?_⟩
  exact ((detect_architecture_spec "riscv64").2.2 (by decide) (by decide)).trans
    (by decide)

/-- Claim C8: a `compute-only` or `desktop-only` variant makes the resolver
log exactly one WARNING advisory announcing that the variant is treated as
`full`, and the resolved plan coincides with the plan of the same config
with variant `full` (resolution never fails on account of the variant); a
`full` variant logs no advisory. -/
theorem variant_advisory (config : InstallerConfig) (hv : String) :
    (config.variant = "compute-only" ∨ config.variant = "desktop-only" →
      (build_commands config hv).1 =
        [("Notice: current distro recipes do not separate compute-only/desktop-only. Variant \"" ++
            config.variant ++ "\" will be treated as \"full\".", "WARNING")] ∧
      (build_commands config hv).2 =
        (build_commands { config with variant := "full" } hv).2) ∧
    (config.variant = "full" → (build_commands config hv).1 = []) := by
  constructor
  · intro h
    constructor
    · show warn_variant_if_needed config.variant = _
      rw [warn_variant_if_needed, if_pos h]
    · rfl
  · intro h
    show warn_variant_if_needed config.variant = []
    rw [h]
    decide

/-- Witness for claim C8 at a `compute-only` and a `full` config. -/
theorem variant_advisory_witness :
    (build_commands (mkInstallerConfig "ubuntu" "x86_64" "open" "compute-only" true)
        "22.04").1 =
      [("Notice: current distro recipes do not separate compute-only/desktop-only. Variant \"compute-only\" will be treated as \"full\".",
        "WARNING")] ∧
    (build_commands (mkInstallerConfig "ubuntu" "x86_64" "open" "compute-only" true)
        "22.04").2 =
      (build_commands
        { mkInstallerConfig "ubuntu" "x86_64" "open" "compute-only" true with
            variant := "full" } "22.04").2 ∧
    (build_commands (mkInstallerConfig "ubuntu" "x86_64" "open" "full" true)
        "22.04").1 = [] := by
  obtain ⟨h1, h2⟩ :=
    (variant_advisory (mkInstallerConfig "ubuntu" "x86_64" "open" "compute-only" true)
      "22.04").1 (by decide)
  exact ⟨h1, h2,
    (variant_advisory (mkInstallerConfig "ubuntu" "x86_64" "open" "full" true)
      "22.04").2 (by decide)⟩

/-- Claim C9: `detect_os_release` is total over the modelled host states: a
missing OS metadata file yields the lowercased generic platform name with an
empty version, and an existing file yields, for each of `ID` and
`VERSION_ID`, the quote-stripped value of its last occurrence, the empty
string when the key does not occur. -/
theorem detect_os_release_spec :
    (∀ sys : String, detect_os_release none sys = (lowerStr sys, "")) ∧
    (∀ (lines : List String) (sys : String),
      detect_os_release (some lines) sys =
        (lastKeyValue "ID" lines, lastKeyValue "VERSION_ID" lines)) ∧
    (∀ (key : String) (lines : List String),
      lines.all (fun l => !(mentionsKey key l)) = true →
      lastKeyValue key lines = "") := by
  refine ⟨fun sys => rfl, fun lines sys => ?_, fun key lines h => ?_⟩
  · show lines.foldl osrStep ("", "") = _
    exact osr_foldl_eq lines "" ""
  · have h2 : ∀ l ∈ lines, mentionsKey key l = false := by
      intro l hl
      have h3 := List.all_eq_true.mp h l hl
      simpa using h3
    exact keyStep_foldl_id key lines h2 ""

/-- Witness for claim C9 on the three behaviours of the detector. -/
theorem detect_os_release_spec_witness :
    detect_os_release none "Linux" = ("linux", "") ∧
    detect_os_release (some ["ID=ubuntu", "VERSION_ID=\"22.04\"", "junk"]) "x" =
      ("ubuntu", "22.04") ∧
    lastKeyValue "ID" ["FOO=bar"] = "" := by
  refine ⟨(detect_os_release_spec.1 "Linux").trans (by decide),
    (detect_os_release_spec.2.1 ["ID=ubuntu", "VERSION_ID=\"22.04\"", "junk"]
      "x").trans (by decide),
    detect_os_release_spec.2.2 "ID" ["FOO=bar"] (by decide)⟩

/-- Claim C2 counterexample: the supported target `rhel10` (reached here
from distribution `rhel` with host version `10`) resolves to a three-command
plan whose phases are refresh, register, install: it contains no
clean/refresh of the local repository cache at all, in particular none
between the repository registration and the package install. -/
theorem rhel10_plan_lacks_clean :
    "rhel10" ∈ supportedKeys ∧
    (build_commands (mkInstallerConfig "rhel" "x86_64" "open" "full" true) "10").2 =
      Except.ok
        ["dnf upgrade -y",
         "dnf config-manager --add-repo https://developer.download.nvidia.com/compute/cuda/repos/rhel10/x86_64/cuda-rhel10.repo",
         "dnf -y install nvidia-open"] ∧
    List.map stepClass
        ["dnf upgrade -y",
         "dnf config-manager --add-repo https://developer.download.nvidia.com/compute/cuda/repos/rhel10/x86_64/cuda-rhel10.repo",
         "dnf -y install nvidia-open"] =
      [StepClass.refresh, StepClass.register, StepClass.install] := by decide

/-- Claim C2 (amended): for every supported input, the resolved plan follows
the phase shape refresh, register, clean, install (registration may span
several consecutive commands), except for the target `rhel10`, whose plan
omits the cache clean/refresh phase and is refresh, register, install. -/
theorem plan_phase_shape (config : InstallerConfig) (hv : String)
    (hk : distro_key config.distro hv ∈ supportedKeys) :
    ∃ cmds, (build_commands config hv).2 = Except.ok cmds ∧
      collapseClasses (cmds.map stepClass) =
        (if distro_key config.distro hv = "rhel10"
          then [StepClass.refresh, StepClass.register, StepClass.install]
          else [StepClass.refresh, StepClass.register, StepClass.clean,
            StepClass.install]) := by
  obtain ⟨cmds, h1, _, _, _, h5⟩ :=
    commands_for_key_ok config.distro (distro_key config.distro hv) config.module hk
  exact ⟨cmds, h1, h5⟩

/-- Witness for claim C2 at the supported target `fedora42`. -/
theorem plan_phase_shape_witness :
    ∃ cmds,
      (build_commands (mkInstallerConfig "fedora" "x86_64" "open" "full" true)
          "42").2 = Except.ok cmds ∧
      collapseClasses (cmds.map stepClass) =
        (if distro_key (mkInstallerConfig "fedora" "x86_64" "open" "full" true).distro
              "42" = "rhel10"
          then [StepClass.refresh, StepClass.register, StepClass.install]
          else [StepClass.refresh, StepClass.register, StepClass.clean,
            StepClass.install]) :=
  plan_phase_shape (mkInstallerConfig "fedora" "x86_64" "open" "full" true) "42"
    (by decide)

/-- Claim C3: the resolved plan is a function of exactly the (lowercased)
config distribution, the host `VERSION_ID` and the config module: configs
agreeing on distribution and module resolve identically whatever their
architecture and variant; every NVIDIA repository URL of every plan is
hard-coded to `x86_64`; and a fixed config can resolve to different plans on
hosts whose `VERSION_ID` differ, since the version is read from the host,
not the config. -/
theorem plan_depends_only_on_distro_version_module :
    (∀ (c1 c2 : InstallerConfig) (hv : String), c1.distro = c2.distro →
      c1.module = c2.module →
      (build_commands c1 hv).2 = (build_commands c2 hv).2) ∧
    (∀ (config : InstallerConfig) (hv : String) (cmds : List String),
      (build_commands config hv).2 = Except.ok cmds →
      ∀ c ∈ cmds, containsSub "developer.download.nvidia.com" c = true →
        containsSub "/x86_64/" c = true) ∧
    (∃ (config : InstallerConfig) (hv1 hv2 : String),
      (build_commands config hv1).2 ≠ (build_commands config hv2).2) := by
  refine ⟨fun c1 c2 hv h1 h2 => ?_, fun config hv cmds h c hc hn => ?_, ?_⟩
  · show commands_for_key c1.distro (distro_key c1.distro hv) c1.module = _
    rw [h1, h2]
    rfl
  · have hk := mem_supported_of_ok config.distro (distro_key config.distro hv)
      config.module cmds h
    obtain ⟨cmds2, h1, _, _, h4, _⟩ :=
      commands_for_key_ok config.distro (distro_key config.distro hv)
        config.module hk
    have heq : cmds2 = cmds := Except.ok.inj (h1.symm.trans h)
    subst heq
    exact h4 c hc hn
  · exact ⟨mkInstallerConfig "rhel" "x86_64" "open" "full" true, "8", "9", by decide⟩

/-- Witness for claim C3: arch and variant do not influence the plan, and a
concrete NVIDIA repository URL of the ubuntu plan is an `x86_64` one. -/
theorem plan_depends_witness :
    (build_commands (mkInstallerConfig "ubuntu" "x86_64" "open" "full" true)
        "22.04").2 =
      (build_commands (mkInstallerConfig "ubuntu" "sbsa" "open" "desktop-only" false)
        "22.04").2 ∧
    containsSub "/x86_64/"
      "wget https://developer.download.nvidia.com/compute/cuda/repos/ubuntu2204/x86_64/cuda-keyring_1.1-1_all.deb" =
      true := by
  constructor
  · exact plan_depends_only_on_distro_version_module.1
      (mkInstallerConfig "ubuntu" "x86_64" "open" "full" true)
      (mkInstallerConfig "ubuntu" "sbsa" "open" "desktop-only" false)
      "22.04" (by decide) (by decide)
  · exact plan_depends_only_on_distro_version_module.2.1
      (mkInstallerConfig "ubuntu" "x86_64" "open" "full" true) "22.04"
      ["apt-get upgrade -y",
       "wget https://developer.download.nvidia.com/compute/cuda/repos/ubuntu2204/x86_64/cuda-keyring_1.1-1_all.deb",
       "dpkg -i cuda-keyring_1.1-1_all.deb",
       "apt-get update",
       "apt-get install -y nvidia-open"] (by decide)
      "wget https://developer.download.nvidia.com/compute/cuda/repos/ubuntu2204/x86_64/cuda-keyring_1.1-1_all.deb"
      (by decide) (by decide)

/-- Claim C10: every supported input resolves to a non-empty plan containing
exactly one NVIDIA-repository registration command, and the plan is
determined (same list, same order) by the distribution, the host version
and the module alone, so repeated calls with the same inputs agree. -/
theorem resolve_supported_plan (config : InstallerConfig) (hv : String)
    (hk : distro_key config.distro hv ∈ supportedKeys) :
    ∃ cmds, (build_commands config hv).2 = Except.ok cmds ∧
      cmds ≠ [] ∧
      List.countP (fun c => registersVendorRepo c) cmds = 1 ∧
      (∀ config2 : InstallerConfig, config2.distro = config.distro →
        config2.module = config.module →
        (build_commands config2 hv).2 = Except.ok cmds) := by
  obtain ⟨cmds, h1, h2, h3, _, _⟩ :=
    commands_for_key_ok config.distro (distro_key config.distro hv) config.module hk
  refine ⟨cmds, h1, h2, h3, fun c2 hd hm => ?_⟩
  show commands_for_key c2.distro (distro_key c2.distro hv) c2.module = _
  rw [hd, hm]
  exact h1

/-- Witness for claim C10 at the supported target `opensuse15`. -/
theorem resolve_supported_plan_witness :
    ∃ cmds,
      (build_commands (mkInstallerConfig "opensuse" "x86_64" "proprietary" "full"
          false) "15.5").2 = Except.ok cmds ∧
      cmds ≠ [] ∧
      List.countP (fun c => registersVendorRepo c) cmds = 1 ∧
      (∀ config2 : InstallerConfig,
        config2.distro =
          (mkInstallerConfig "opensuse" "x86_64" "proprietary" "full" false).distro →
        config2.module =
          (mkInstallerConfig "opensuse" "x86_64" "proprietary" "full" false).module →
        (build_commands config2 "15.5").2 = Except.ok cmds) :=
  resolve_supported_plan
    (mkInstallerConfig "opensuse" "x86_64" "proprietary" "full" false) "15.5"
    (by decide)

/-- Claim C4: for the input distro ubuntu, arch x86_64, module open, variant
full with dry run enabled, whenever resolution succeeds the plan is the
five-command ubuntu list: it starts with the index-update/upgrade command,
contains exactly one keyring-registration command, and ends with the
`nvidia-open` install command; the executor logs every command, spawns
none, and the process exits 0. -/
theorem ubuntu_open_dry_run (hv : String) (us : Bool) (o : String → Nat)
    (cmds : List String)
    (hok : (build_commands (mkInstallerConfig "ubuntu" "x86_64" "open" "full" true)
        hv).2 = Except.ok cmds) :
    cmds =
      ["apt-get upgrade -y",
       "wget https://developer.download.nvidia.com/compute/cuda/repos/ubuntu2204/x86_64/cuda-keyring_1.1-1_all.deb",
       "dpkg -i cuda-keyring_1.1-1_all.deb",
       "apt-get update",
       "apt-get install -y nvidia-open"] ∧
    cmds.head? = some "apt-get upgrade -y" ∧
    List.countP (fun c => isKeyringRegistration c) cmds = 1 ∧
    cmds.getLast? = some "apt-get install -y nvidia-open" ∧
    containsSub "nvidia-open" "apt-get install -y nvidia-open" = true ∧
    run_plan cmds true us o =
      (cmds.map (fun c => ExecEvent.logged ("$ " ++ full_cmd us c)), none) ∧
    spawnedCmds (run_plan cmds true us o).1 = [] ∧
    main_run ⟨"ubuntu", "x86_64", "open", "full", true⟩ hv us o =
      (0, cmds.map (fun c => ExecEvent.logged ("$ " ++ full_cmd us c))) := by
  have hok2 : commands_for_key (lowerStr "ubuntu") (distro_key (lowerStr "ubuntu") hv)
      (lowerStr "open") = Except.ok cmds := hok
  rw [(by decide : lowerStr "ubuntu" = "ubuntu"),
    (by decide : lowerStr "open" = "open")] at hok2
  cases hb : startsWithL "22.04" (lowerStr hv) with
  | false =>
    exfalso
    have hns := (distro_key_ubuntu hv).2 hb
    rw [commands_for_key_unsupported "ubuntu" (distro_key "ubuntu" hv) "open" hns]
      at hok2
    exact Except.noConfusion hok2
  | true =>
    have hk := (distro_key_ubuntu hv).1 hb
    rw [hk] at hok2
    have hL : commands_for_key "ubuntu" "ubuntu22.04" "open" =
        Except.ok
          ["apt-get upgrade -y",
           "wget https://developer.download.nvidia.com/compute/cuda/repos/ubuntu2204/x86_64/cuda-keyring_1.1-1_all.deb",
           "dpkg -i cuda-keyring_1.1-1_all.deb",
           "apt-get update",
           "apt-get install -y nvidia-open"] := by decide
    have hcmds := Except.ok.inj (hL.symm.trans hok2)
    subst hcmds
    refine ⟨rfl, by decide, by decide, by decide, by decide,
      run_plan_dry _ us o, ?_, ?_⟩
    · rw [run_plan_dry]
      exact spawnedCmds_map_logged (fun c => "$ " ++ full_cmd us c) _
    · simp only [main_run, hok]
      rw [show (mkInstallerConfig "ubuntu" "x86_64" "open" "full" true).dry_run = true
        from rfl]
      rw [run_plan_dry]
      rfl

/-- Witness for claim C4 at host version 22.04. -/
theorem ubuntu_open_dry_run_witness :
    ["apt-get upgrade -y",
     "wget https://developer.download.nvidia.com/compute/cuda/repos/ubuntu2204/x86_64/cuda-keyring_1.1-1_all.deb",
     "dpkg -i cuda-keyring_1.1-1_all.deb",
     "apt-get update",
     "apt-get install -y nvidia-open"].head? = some "apt-get upgrade -y" ∧
    main_run ⟨"ubuntu", "x86_64", "open", "full", true⟩ "22.04" false (fun _ => 1) =
      (0,
        ["apt-get upgrade -y",
         "wget https://developer.download.nvidia.com/compute/cuda/repos/ubuntu2204/x86_64/cuda-keyring_1.1-1_all.deb",
         "dpkg -i cuda-keyring_1.1-1_all.deb",
         "apt-get update",
         "apt-get install -y nvidia-open"].map
          (fun c => ExecEvent.logged ("$ " ++ full_cmd false c))) := by
  obtain ⟨_, h2, _, _, _, _, _, h8⟩ :=
    ubuntu_open_dry_run "22.04" false (fun _ => 1)
      ["apt-get upgrade -y",
       "wget https://developer.download.nvidia.com/compute/cuda/repos/ubuntu2204/x86_64/cuda-keyring_1.1-1_all.deb",
       "dpkg -i cuda-keyring_1.1-1_all.deb",
       "apt-get update",
       "apt-get install -y nvidia-open"] (by decide)
  exact ⟨h2, h8⟩

/-- Claim C6: in live mode an all-zero plan runs every command in plan
order (each logged then spawned) and returns normally, while the first
command with a nonzero exit code is logged as failed and stops the loop:
the loop exits with that same code, exactly the commands up to and
including the failing one were spawned, and `main` terminates with the
loop exit code (0 on success). -/
theorem live_fail_fast :
    (∀ (cmds : List String) (us : Bool) (o : String → Nat),
      (∀ c ∈ cmds, o (full_cmd us c) = 0) →
      run_plan cmds false us o = (liveTrace us cmds, none) ∧
      spawnedCmds (liveTrace us cmds) = cmds.map (full_cmd us)) ∧
    (∀ (pre : List String) (c : String) (post : List String) (us : Bool)
        (o : String → Nat),
      (∀ x ∈ pre, o (full_cmd us x) = 0) → o (full_cmd us c) ≠ 0 →
      (run_plan (pre ++ c :: post) false us o).2 = some (o (full_cmd us c)) ∧
      spawnedCmds (run_plan (pre ++ c :: post) false us o).1 =
        (pre ++ [c]).map (full_cmd us) ∧
      ExecEvent.logged ("Command failed with exit code " ++
          toString (o (full_cmd us c))) ∈
        (run_plan (pre ++ c :: post) false us o).1) ∧
    (∀ (a : Args) (hv : String) (us : Bool) (o : String → Nat)
        (cmds : List String),
      (build_commands (mkInstallerConfig a.distro a.arch a.module a.variant
          a.dry_run) hv).2 = Except.ok cmds →
      a.dry_run = false →
      main_run a hv us o =
        (((run_plan cmds false us o).2).getD 0, (run_plan cmds false us o).1)) := by
  refine ⟨fun cmds us o h => ⟨run_plan_all_zero cmds us o h,
    spawnedCmds_liveTrace us cmds⟩,
    fun pre c post us o hpre hc => ?_, fun a hv us o cmds hok hdry => ?_⟩
  · rw [run_plan_fail pre c post us o hpre hc]
    refine ⟨rfl, ?_, ?_⟩
    · rw [spawnedCmds_append, spawnedCmds_liveTrace]
      simp [spawnedCmds_cons_logged, spawnedCmds_cons_spawned, spawnedCmds_nil]
    · simp
  · simp only [main_run, hok]
    rw [hdry]
    rfl

/-- Witness for claim C6: a two-command all-zero run, a failing run where
command b exits 7, and the main-level exit code. -/
theorem live_fail_fast_witness :
    run_plan ["a", "b"] false false (fun _ => 0) =
      (liveTrace false ["a", "b"], none) ∧
    (run_plan (["a"] ++ "b" :: ["c"]) false false
        (fun s => if s = "b" then 7 else 0)).2 = some 7 ∧
    spawnedCmds (run_plan (["a"] ++ "b" :: ["c"]) false false
        (fun s => if s = "b" then 7 else 0)).1 =
      (["a"] ++ ["b"]).map (full_cmd false) ∧
    ExecEvent.logged ("Command failed with exit code 7") ∈
      (run_plan (["a"] ++ "b" :: ["c"]) false false
        (fun s => if s = "b" then 7 else 0)).1 ∧
    main_run ⟨"ubuntu", "x86_64", "open", "full", false⟩ "22.04" false
        (fun _ => 0) =
      (((run_plan
          ["apt-get upgrade -y",
           "wget https://developer.download.nvidia.com/compute/cuda/repos/ubuntu2204/x86_64/cuda-keyring_1.1-1_all.deb",
           "dpkg -i cuda-keyring_1.1-1_all.deb",
           "apt-get update",
           "apt-get install -y nvidia-open"] false false (fun _ => 0)).2).getD 0,
        (run_plan
          ["apt-get upgrade -y",
           "wget https://developer.download.nvidia.com/compute/cuda/repos/ubuntu2204/x86_64/cuda-keyring_1.1-1_all.deb",
           "dpkg -i cuda-keyring_1.1-1_all.deb",
           "apt-get update",
           "apt-get install -y nvidia-open"] false false (fun _ => 0)).1) := by
  obtain ⟨h2, h3, h4⟩ := live_fail_fast.2.1 ["a"] "b" ["c"] false
    (fun s => if s = "b" then 7 else 0) (by decide) (by decide)
  refine ⟨(live_fail_fast.1 ["a", "b"] false (fun _ => 0) (by decide)).1,
    h2, h3, h4,
    live_fail_fast.2.2 ⟨"ubuntu", "x86_64", "open", "full", false⟩ "22.04" false
      (fun _ => 0)
      ["apt-get upgrade -y",
       "wget https://developer.download.nvidia.com/compute/cuda/repos/ubuntu2204/x86_64/cuda-keyring_1.1-1_all.deb",
       "dpkg -i cuda-keyring_1.1-1_all.deb",
       "apt-get update",
       "apt-get install -y nvidia-open"] (by decide) rfl⟩
